import Mathlib

/-!
# Driver Telemetry — verification of the analytics core

A shallow embedding, in Lean 4, of the algorithmic core of the Driver
Telemetry repository (metrics derivation, TTL cache, load analysis,
burnout scoring, collaboration chemistry, Monte Carlo sprint
prediction), together with theorems settling the frozen claims about
the natural-language specification.

Conventions of the embedding:
* JavaScript `number` values are modelled as `ℚ`; timestamps
  (`Date.getTime()`) are milliseconds since the epoch, as `ℚ`.
* `Math.floor` is `Rat.floor`; `Math.max`/`Math.min` are `max`/`min`.
* TypeScript string-literal union types become inductive types;
  `Record<K, V>` becomes `List (K × V)`; optional fields become
  `Option`.
* Source identifiers are kept wherever Lean allows (including the
  source's typo `determinRiskLevel`); `namespace`/`end` style field
  names, which are Lean keywords, are renamed (`ns`, `endHour`).
-/

/-- `average` from `src/backend/utils/calculations.ts`: arithmetic mean,
`0` on the empty list. -/
def average (numbers : List ℚ) : ℚ :=
  if numbers.length = 0 then 0 else numbers.sum / numbers.length

/-- The `'high' | 'medium' | 'low'` confidence tier. -/
inductive Confidence where
  | high
  | medium
  | low
deriving DecidableEq, Repr

/-- `calculateConfidence` from `src/backend/utils/calculations.ts`. -/
def calculateConfidence (dataPoints : ℕ) : Confidence :=
  if dataPoints ≥ 30 then .high
  else if dataPoints ≥ 10 then .medium
  else .low

/-- `daysBetween` from `utils/dateHelpers.ts`:
`Math.floor((end - start) / (1000*60*60*24))` on millisecond
timestamps. -/
def daysBetween (start finish : ℚ) : ℤ :=
  ⌊(finish - start) / (1000 * 60 * 60 * 24)⌋

/-- `hoursBetween` from `utils/dateHelpers.ts`. -/
def hoursBetween (start finish : ℚ) : ℚ :=
  (finish - start) / (1000 * 60 * 60)

/-! ## Metrics derivation (`src/backend/data/jira/metrics.ts` part) -/

/-- One changelog record (`IssueChangelog`), restricted to the fields the
derivation functions read: the changed field's name, its old and new
values, and the timestamp (ms). -/
structure IssueChangelog where
  field : String
  fromValue : String
  toValue : String
  timestamp : ℚ
deriving DecidableEq, Repr

/-- The predicate of `calculateCycleTime`'s first `find`: a status
transition into `'In Progress'` or `'In Development'`. -/
def isInProgressTransition (c : IssueChangelog) : Bool :=
  c.field == "status" &&
    (c.toValue == "In Progress" || c.toValue == "In Development")

/-- The predicate of `calculateCycleTime`'s second `find`: a status
transition into `'Done'`, `'Closed'` or `'Resolved'`. -/
def isDoneTransition (c : IssueChangelog) : Bool :=
  c.field == "status" &&
    (c.toValue == "Done" || c.toValue == "Closed" || c.toValue == "Resolved")

/-- `calculateCycleTime`: days between the first in-progress transition
and the first done transition found in the changelog (the source's
`find` scans from the front and does not require the done transition to
come after the in-progress one); `0` when either is absent. -/
def calculateCycleTime (changelogs : List IssueChangelog) : ℤ :=
  match changelogs.find? isInProgressTransition,
        changelogs.find? isDoneTransition with
  | some inProgressChange, some doneChange =>
      daysBetween inProgressChange.timestamp doneChange.timestamp
  | _, _ => 0

/-- `calculateLeadTime`: days between the first changelog record and the
first done transition; `0` on an empty log or when no done transition
exists. -/
def calculateLeadTime (changelogs : List IssueChangelog) : ℤ :=
  match changelogs with
  | [] => 0
  | firstChange :: _ =>
    match changelogs.find? isDoneTransition with
    | none => 0
    | some doneChange => daysBetween firstChange.timestamp doneChange.timestamp

/-- `l.find? p` returns the element at the least index satisfying `p`. -/
theorem find?_eq_of_minimal {α : Type} (p : α → Bool) :
    ∀ (l : List α) (j : ℕ) (x : α), l[j]? = some x → p x = true →
    (∀ k, k < j → ∀ y, l[k]? = some y → p y = false) →
    l.find? p = some x := by
  intro l
  induction l with
  | nil => intro j x hx; simp at hx
  | cons a t ih =>
    intro j x hx hpx hmin
    cases j with
    | zero =>
      simp at hx
      subst hx
      exact List.find?_cons_of_pos _ hpx
    | succ j =>
      have ha : p a = false := hmin 0 (Nat.succ_pos j) a (by simp)
      rw [List.find?_cons_of_neg _ (by simp [ha])]
      rw [List.getElem?_cons_succ] at hx
      refine ih j x hx hpx (fun k hk y hy => ?_)
      exact hmin (k + 1) (Nat.succ_lt_succ hk) y (by simpa using hy)

/-- C1 (counterexample): in a changelog whose first done transition
(day 5) precedes its first in-progress transition (day 10) — an item
closed and then reopened into progress — `calculateCycleTime` returns
`-5`: a negative value, not the `0` the claim requires when no done
transition occurs after the in-progress one. -/
theorem calculateCycleTime_neg_counterexample :
    calculateCycleTime
      [⟨"status", "In Progress", "Done", 5 * 86400000⟩,
       ⟨"status", "Done", "In Progress", 10 * 86400000⟩] = -5 ∧
    ((-5 : ℤ) ≠ 0) ∧ ((-5 : ℤ) < 0) := by
  refine ⟨?_, by decide, by decide⟩
  simp [calculateCycleTime, List.find?, isInProgressTransition, isDoneTransition,
    daysBetween]
  norm_num

/-- C1 (amended): the derived cycle time is the (floored) number of days
from the first in-progress transition to the first done transition found
anywhere in the history — possibly negative when the first done
transition precedes the first in-progress one — and is exactly `0` when
either transition is absent; in particular a history with no
done-equivalent transition yields cycle time and lead time exactly
`0`. -/
theorem calculateCycleTime_leadTime_spec (cs : List IssueChangelog) :
    (cs.find? isDoneTransition = none ∨ cs.find? isInProgressTransition = none →
      calculateCycleTime cs = 0) ∧
    (cs.find? isDoneTransition = none → calculateLeadTime cs = 0) ∧
    (∀ (i j : ℕ) (ip dn : IssueChangelog),
      cs[i]? = some ip → isInProgressTransition ip = true →
      (∀ k, k < i → ∀ y, cs[k]? = some y → isInProgressTransition y = false) →
      cs[j]? = some dn → isDoneTransition dn = true →
      (∀ k, k < j → ∀ y, cs[k]? = some y → isDoneTransition y = false) →
      calculateCycleTime cs = daysBetween ip.timestamp dn.timestamp) := by
  refine ⟨?_, ?_, ?_⟩
  · intro h
    unfold calculateCycleTime
    rcases h with h | h
    · rw [h]
      rcases cs.find? isInProgressTransition with _ | c <;> rfl
    · rw [h]
  · intro h
    cases cs with
    | nil => rfl
    | cons a t =>
      unfold calculateLeadTime
      rw [h]
  · intro i j ip dn hip hpip hmini hdn hpdn hminj
    have h1 : cs.find? isInProgressTransition = some ip :=
      find?_eq_of_minimal _ cs i ip hip hpip hmini
    have h2 : cs.find? isDoneTransition = some dn :=
      find?_eq_of_minimal _ cs j dn hdn hpdn hminj
    unfold calculateCycleTime
    rw [h1, h2]

/-- Witness for the amended C1: the spec's own scenario — a transition
into `'In Progress'` at day 0 followed by one into `'Done'` at day 5 —
yields cycle time exactly 5. -/
theorem calculateCycleTime_leadTime_spec_witness :
    calculateCycleTime
      [⟨"status", "To Do", "In Progress", 0⟩,
       ⟨"status", "In Progress", "Done", 5 * 86400000⟩] = 5 := by
  have h := (calculateCycleTime_leadTime_spec
      [⟨"status", "To Do", "In Progress", 0⟩,
       ⟨"status", "In Progress", "Done", 5 * 86400000⟩]).2.2
      0 1 ⟨"status", "To Do", "In Progress", 0⟩
      ⟨"status", "In Progress", "Done", 5 * 86400000⟩
      rfl (by decide)
      (fun k hk y _ => absurd hk (Nat.not_lt_zero k))
      rfl (by decide)
      (fun k hk y hy => by
        have hk0 : k = 0 := by omega
        subst hk0
        simp at hy
        subst hy
        decide)
  rw [h]
  norm_num [daysBetween]

/-! ## Load analyzer (`src/backend/analyzers/load.ts`) -/

/-- The slice of an issue record read by `calculateConcurrentLoad`:
its key and its creation/resolution timestamps (ms). -/
structure LoadIssue where
  key : String
  created : Option ℚ
  resolved : Option ℚ
deriving DecidableEq, Repr

/-- `calculateConcurrentLoad`: the number of *other* issues whose
`[created, resolved-or-now)` interval overlaps this issue's interval,
floored at 1 (`Math.max(1, concurrent)`); `1` outright when the issue
has no creation date. The source dereferences `other.created`
unconditionally (a runtime error on an absent value), so the embedding
is read at `getD 0` there; every input used below has all creation
dates present. -/
def calculateConcurrentLoad (issue : LoadIssue) (allIssues : List LoadIssue)
    (now : ℚ) : ℕ :=
  match issue.created with
  | none => 1
  | some issueStart =>
    let issueEnd := issue.resolved.getD now
    let concurrent := allIssues.countP (fun other =>
      decide (other.key ≠ issue.key ∧
        other.created.getD 0 ≤ issueEnd ∧ other.resolved.getD now ≥ issueStart))
    max 1 concurrent

/-- C2 (counterexample): three items `[0,10]`, `[5,15]`, `[8,20]` —
pairwise overlapping — get concurrent load `2` each (the item itself is
skipped, leaving 2 overlapping others), not the `3` the claim states. -/
theorem calculateConcurrentLoad_three_counterexample :
    calculateConcurrentLoad ⟨"A", some 0, some 10⟩
      [⟨"A", some 0, some 10⟩, ⟨"B", some 5, some 15⟩, ⟨"C", some 8, some 20⟩]
      100 = 2 ∧
    calculateConcurrentLoad ⟨"B", some 5, some 15⟩
      [⟨"A", some 0, some 10⟩, ⟨"B", some 5, some 15⟩, ⟨"C", some 8, some 20⟩]
      100 = 2 ∧
    calculateConcurrentLoad ⟨"C", some 8, some 20⟩
      [⟨"A", some 0, some 10⟩, ⟨"B", some 5, some 15⟩, ⟨"C", some 8, some 20⟩]
      100 = 2 ∧
    (2 : ℕ) ≠ 3 := by
  refine ⟨?_, ?_, ?_, by decide⟩ <;>
    · norm_num [calculateConcurrentLoad, List.countP_cons, List.countP_nil]
      decide

/-- C2 (amended): for any three items with pairwise-distinct keys and
pairwise-overlapping activity intervals, the concurrent load computed
for each item is `2`: the item's own interval is excluded from its own
count, leaving the two overlapping others, and the `max(1, count)`
floor does not bite. -/
theorem calculateConcurrentLoad_three_pairwise
    (ka kb kc : String) (sa sb sc : ℚ) (ra rb rc : Option ℚ) (now : ℚ)
    (hab : ka ≠ kb) (hac : ka ≠ kc) (hbc : kb ≠ kc)
    (hab1 : sb ≤ ra.getD now) (hab2 : sa ≤ rb.getD now)
    (hac1 : sc ≤ ra.getD now) (hac2 : sa ≤ rc.getD now)
    (hbc1 : sc ≤ rb.getD now) (hbc2 : sb ≤ rc.getD now) :
    calculateConcurrentLoad ⟨ka, some sa, ra⟩
      [⟨ka, some sa, ra⟩, ⟨kb, some sb, rb⟩, ⟨kc, some sc, rc⟩] now = 2 ∧
    calculateConcurrentLoad ⟨kb, some sb, rb⟩
      [⟨ka, some sa, ra⟩, ⟨kb, some sb, rb⟩, ⟨kc, some sc, rc⟩] now = 2 ∧
    calculateConcurrentLoad ⟨kc, some sc, rc⟩
      [⟨ka, some sa, ra⟩, ⟨kb, some sb, rb⟩, ⟨kc, some sc, rc⟩] now = 2 := by
  refine ⟨?_, ?_, ?_⟩ <;>
    simp [calculateConcurrentLoad, List.countP_cons, List.countP_nil,
      hab, hac, hbc, Ne.symm hab, Ne.symm hac, Ne.symm hbc,
      hab1, hab2, hac1, hac2, hbc1, hbc2, le_refl]

/-- Witness for the amended C2: the theorem applied to the concrete
triple `[0,10]`, `[5,15]`, `[8,20]` at `now = 100`. -/
theorem calculateConcurrentLoad_three_pairwise_witness :
    calculateConcurrentLoad ⟨"A", some 0, some 10⟩
      [⟨"A", some 0, some 10⟩, ⟨"B", some 5, some 15⟩, ⟨"C", some 8, some 20⟩]
      100 = 2 := by
  have h := calculateConcurrentLoad_three_pairwise "A" "B" "C" 0 5 8
    (some 10) (some 15) (some 20) 100
    (by decide) (by decide) (by decide)
    (by norm_num) (by norm_num) (by norm_num)
    (by norm_num) (by norm_num) (by norm_num)
  exact h.1

/-! ## Cache layer (`src/backend/data/cache.ts`, `src/backend/models/cache.ts`) -/

/-- `CACHE_VERSION` from `models/cache.ts`. -/
def CACHE_VERSION : String := "1.2.0"

/-- `DEFAULT_TTL_HOURS` from `models/cache.ts`. -/
def DEFAULT_TTL_HOURS : ℚ := 24

/-- `CacheEntry<T>` from `models/cache.ts`: payload, last-computed
timestamp (ms), declared TTL in hours, schema version string. -/
structure CacheEntry (α : Type) where
  data : α
  lastUpdated : ℚ
  ttlHours : ℚ
  version : String

/-- `CacheKey` from `models/cache.ts`; the `namespace` field is renamed
`ns` (Lean keyword). -/
structure CacheKey where
  ns : String
  accountId : String
  suffix : Option String
deriving DecidableEq, Repr

/-- `buildCacheKey`: `['user', accountId, namespace (, suffix)].join(':')`. -/
def buildCacheKey (key : CacheKey) : String :=
  String.intercalate ":"
    (["user", key.accountId, key.ns] ++
      (match key.suffix with
       | some s => [s]
       | none => []))

/-- `getCached`: reads the Forge storage (modelled as a map from string
keys to entries), returns `none` on a missing key; on a version
mismatch deletes the entry and returns `none`; on an entry older than
`ttlHours` (the *caller-supplied* parameter) returns `none`; otherwise
returns the stored payload. The result pairs the returned value with
the post-call storage (the delete on version mismatch). -/
def getCached {α : Type} (storage : String → Option (CacheEntry α))
    (key : CacheKey) (ttlHours : ℚ) (now : ℚ) :
    Option α × (String → Option (CacheEntry α)) :=
  let cacheKey := buildCacheKey key
  match storage cacheKey with
  | none => (none, storage)
  | some entry =>
    if entry.version ≠ CACHE_VERSION then
      (none, fun k => if k = cacheKey then none else storage k)
    else
      let age := now - entry.lastUpdated
      let maxAge := ttlHours * 60 * 60 * 1000
      if age > maxAge then (none, storage)
      else (some entry.data, storage)

/-- `setCache`: writes a fresh entry (current timestamp, the given
`ttlHours`, the current `CACHE_VERSION`) under the built key. -/
def setCache {α : Type} (storage : String → Option (CacheEntry α))
    (key : CacheKey) (data : α) (ttlHours : ℚ) (now : ℚ) :
    String → Option (CacheEntry α) :=
  fun k =>
    if k = buildCacheKey key then
      some { data := data, lastUpdated := now, ttlHours := ttlHours,
             version := CACHE_VERSION }
    else storage k

/-- C4: a `getCached` after a `setCache` under the same key and TTL
returns the identical payload while at most `ttlHours` have elapsed,
returns `none` (absent, not an error) once more than `ttlHours` have
elapsed, and returns `none` for any stored entry whose schema version
differs from the current `CACHE_VERSION`. -/
theorem cache_get_after_set {α : Type} (storage : String → Option (CacheEntry α))
    (key : CacheKey) (data : α) (ttl t0 t1 : ℚ) :
    (t1 - t0 ≤ ttl * 60 * 60 * 1000 →
      (getCached (setCache storage key data ttl t0) key ttl t1).1 = some data) ∧
    (t1 - t0 > ttl * 60 * 60 * 1000 →
      (getCached (setCache storage key data ttl t0) key ttl t1).1 = none) ∧
    (∀ entry, storage (buildCacheKey key) = some entry →
      entry.version ≠ CACHE_VERSION →
      (getCached storage key ttl t1).1 = none) := by
  refine ⟨?_, ?_, ?_⟩
  · intro h
    simp [getCached, setCache, CACHE_VERSION, not_lt.mpr h]
  · intro h
    simp [getCached, setCache, CACHE_VERSION, h]
  · intro entry hstore hver
    simp [getCached, hstore, if_pos hver]

/-- Witness for C4: a concrete round trip — payload `7` stored at time
`0` with a 24-hour TTL is still returned 1000 ms later. -/
theorem cache_get_after_set_witness :
    ((1000 : ℚ) - 0 ≤ 24 * 60 * 60 * 1000) ∧
    (getCached (setCache (fun _ => (none : Option (CacheEntry ℕ)))
        ⟨"timing", "u", none⟩ 7 24 0) ⟨"timing", "u", none⟩ 24 1000).1 = some 7 := by
  refine ⟨by norm_num, ?_⟩
  exact (cache_get_after_set (fun _ => none) ⟨"timing", "u", none⟩ 7 24 0 1000).1
    (by norm_num)

/-- C5 (counterexample): an entry written with `ttlHours = 1` and now
2 hours old (older than its own declared TTL) is still returned by a
`getCached` whose caller passes `ttlHours = 24`: expiry is judged
against the caller-supplied TTL, not the TTL recorded in the entry. -/
theorem getCached_ignores_stored_ttl_counterexample :
    (getCached
      (fun k => if k = "user:u:burnout"
        then some ({ data := 0, lastUpdated := 0, ttlHours := 1,
                     version := "1.2.0" } : CacheEntry ℕ)
        else none)
      ⟨"burnout", "u", none⟩ 24 7200000).1 = some 0 ∧
    (7200000 : ℚ) - 0 > 1 * 60 * 60 * 1000 := by
  have hkey : buildCacheKey ⟨"burnout", "u", none⟩ = "user:u:burnout" := rfl
  constructor
  · simp only [getCached, hkey]
    norm_num [CACHE_VERSION]
  · norm_num

/-- C5 (amended): for a stored entry with the current schema version,
`getCached` treats the entry as absent exactly when its age exceeds the
*caller-supplied* `ttlHours` argument; otherwise it returns the stored
payload. The entry's own recorded `ttlHours` field is never consulted
on read: replacing it by any other value leaves the result unchanged. -/
theorem getCached_expiry_spec {α : Type} (storage : String → Option (CacheEntry α))
    (key : CacheKey) (entry : CacheEntry α) (ttl now : ℚ)
    (hstore : storage (buildCacheKey key) = some entry)
    (hver : entry.version = CACHE_VERSION) :
    ((getCached storage key ttl now).1 = none ↔
      now - entry.lastUpdated > ttl * 60 * 60 * 1000) ∧
    (now - entry.lastUpdated ≤ ttl * 60 * 60 * 1000 →
      (getCached storage key ttl now).1 = some entry.data) ∧
    (∀ t', (getCached
        (fun k => if k = buildCacheKey key
          then some { entry with ttlHours := t' } else storage k)
        key ttl now).1 = (getCached storage key ttl now).1) := by
  have hv : ¬(entry.version ≠ CACHE_VERSION) := by simp [hver]
  refine ⟨?_, ?_, ?_⟩
  · simp only [getCached, hstore, if_neg hv]
    split_ifs with hage
    · simpa using hage
    · simpa using hage
  · intro h
    simp only [getCached, hstore, if_neg hv]
    rw [if_neg (not_lt.mpr h)]
  · intro t'
    simp [getCached, hstore, hver]
    split_ifs with hage <;> rfl

/-- Witness for the amended C5: a version-matching entry 1 second old is
returned under a caller TTL of 24 hours (its stored `ttlHours = 5` plays
no role). -/
theorem getCached_expiry_spec_witness :
    ((1000 : ℚ) - 0 ≤ 24 * 60 * 60 * 1000) ∧
    (getCached
      (fun k => if k = "user:u:load"
        then some ({ data := 3, lastUpdated := 0, ttlHours := 5,
                     version := "1.2.0" } : CacheEntry ℕ)
        else none)
      ⟨"load", "u", none⟩ 24 1000).1 = some 3 := by
  refine ⟨by norm_num, ?_⟩
  have h := getCached_expiry_spec
      (fun k => if k = "user:u:load"
        then some ({ data := 3, lastUpdated := 0, ttlHours := 5,
                     version := "1.2.0" } : CacheEntry ℕ)
        else none)
      ⟨"load", "u", none⟩
      { data := 3, lastUpdated := 0, ttlHours := 5, version := "1.2.0" }
      24 1000 (by rfl) (by rfl)
  exact h.2.1 (by norm_num)

/-! ## Issue records shared by the analyzers -/

/-- `IssueMetrics` from `models/issue.ts`. -/
structure IssueMetrics where
  issueKey : String
  cycleTimeDays : ℚ
  leadTimeDays : ℚ
  inProgressDuration : ℚ
  reviewDuration : ℚ
  wasReopened : Bool
  hadDefect : Bool
  numberOfRevisions : ℕ
deriving DecidableEq, Repr

/-- The slice of an issue-with-metrics record the analyzers read:
key, creation and resolution timestamps, and the derived metrics (absent
when derivation failed). -/
structure Issue where
  key : String
  created : ℚ
  resolved : Option ℚ
  metrics : Option IssueMetrics
deriving DecidableEq, Repr

/-- The recurring filter `i.metrics && i.metrics.cycleTimeDays > 0`. -/
def metricsCycleTimePos (i : Issue) : Bool :=
  match i.metrics with
  | some m => decide (m.cycleTimeDays > 0)
  | none => false

/-- The accompanying map `i => i.metrics.cycleTimeDays` (only ever
applied to issues passing `metricsCycleTimePos`, where metrics exist). -/
def cycleTimeOf (i : Issue) : ℚ :=
  match i.metrics with
  | some m => m.cycleTimeDays
  | none => 0

/-! ## Collaboration chemistry (`analyzers/pitcrew.ts`) -/

/-- The `'excellent' | 'good' | 'neutral' | 'needs-work'` rating
(`needs-work` rendered `needsWork`). -/
inductive ChemRating where
  | excellent
  | good
  | neutral
  | needsWork
deriving DecidableEq, Repr

/-- `ChemistryScore` from `models/analysis.ts`. -/
structure ChemistryScore where
  teammate : String
  displayName : String
  score : ℚ
  speedMultiplier : ℚ
  collaborations : ℕ
  rating : ChemRating
deriving DecidableEq, Repr

/-- One collaborator's accumulated data, as built by
`extractCollaborationData`: identity, the shared issue keys, and the
cycle times of the shared issues that had positive metrics. -/
structure CollabData where
  accountId : String
  displayName : String
  sharedIssues : List String
  cycleTimes : List ℚ
deriving DecidableEq, Repr

/-- The clamp `Math.max(0, Math.min(100, score))` applied to the
chemistry score. -/
def clampScore (x : ℚ) : ℚ := max 0 (min 100 x)

/-- The rating-tier block of `calculateChemistryScores`:
`excellent ≥ 80`, `good ≥ 60`, `neutral ≥ 40`, else `needs-work`. -/
def chemistryRating (score : ℚ) : ChemRating :=
  if score ≥ 80 then .excellent
  else if score ≥ 60 then .good
  else if score ≥ 40 then .neutral
  else .needsWork

/-- The per-collaborator body of `calculateChemistryScores`: the shared
mean (falling back to the solo mean on an empty sample), the speed
multiplier `soloAvg / collaborationAvg` (1.0 when `soloAvg ≤ 0`), the
score adjustments from the baseline 50, the `[0,100]` clamp, and the
rating tiers. -/
def calculateChemistryScoreFor (soloAvg : ℚ) (data : CollabData) : ChemistryScore :=
  let collaborationAvg :=
    if data.cycleTimes.length > 0 then average data.cycleTimes else soloAvg
  let speedMultiplier := if soloAvg > 0 then soloAvg / collaborationAvg else 1.0
  let score1 : ℚ :=
    if speedMultiplier > 1.2 then 50 + 30
    else if speedMultiplier > 1.0 then 50 + 15
    else if speedMultiplier < 0.8 then 50 - 20
    else 50
  let score2 :=
    if data.sharedIssues.length > 10 then score1 + 20
    else if data.sharedIssues.length > 5 then score1 + 10
    else score1
  let score := clampScore score2
  let rating : ChemRating := chemistryRating score
  { teammate := data.accountId
    displayName := data.displayName
    score := score
    speedMultiplier := speedMultiplier
    collaborations := data.sharedIssues.length
    rating := rating }

/-- `calculateChemistryScores`: the solo mean over the user's issues
with positive cycle-time metrics (default 10 when none), then the
per-collaborator body over each collaborator's data. -/
def calculateChemistryScores (collaborationData : List CollabData)
    (allIssues : List Issue) : List (String × ChemistryScore) :=
  let soloCycleTimes := (allIssues.filter metricsCycleTimePos).map cycleTimeOf
  let soloAvg := if soloCycleTimes.length > 0 then average soloCycleTimes else 10
  collaborationData.map (fun data => (data.accountId, calculateChemistryScoreFor soloAvg data))

/-- C7: every collaborator's chemistry score is clamped to `[0,100]` and
the rating is `excellent` exactly when the score is at least 80; the
spec's scenario — 12 shared items, solo mean 10 days, shared mean 7
days — gets speed multiplier `10/7` (≈ 1.43), score `100` (the 50+30+20
total hitting the clamp boundary), and rating `excellent`. -/
theorem chemistry_score_spec :
    (∀ (soloAvg : ℚ) (data : CollabData),
      0 ≤ (calculateChemistryScoreFor soloAvg data).score ∧
      (calculateChemistryScoreFor soloAvg data).score ≤ 100 ∧
      ((calculateChemistryScoreFor soloAvg data).rating = ChemRating.excellent ↔
        (calculateChemistryScoreFor soloAvg data).score ≥ 80)) ∧
    (calculateChemistryScoreFor 10
      ⟨"t", "T", List.replicate 12 "k", List.replicate 12 7⟩).speedMultiplier = 10 / 7 ∧
    ((1.42 : ℚ) < 10 / 7 ∧ (10 / 7 : ℚ) < 1.43) ∧
    (calculateChemistryScoreFor 10
      ⟨"t", "T", List.replicate 12 "k", List.replicate 12 7⟩).score = 100 ∧
    (calculateChemistryScoreFor 10
      ⟨"t", "T", List.replicate 12 "k", List.replicate 12 7⟩).rating = ChemRating.excellent := by
  refine ⟨?_, ?_, ⟨by norm_num, by norm_num⟩, ?_, ?_⟩
  · intro soloAvg data
    obtain ⟨x, hx⟩ : ∃ x, (calculateChemistryScoreFor soloAvg data).score = clampScore x :=
      ⟨_, rfl⟩
    have hr : (calculateChemistryScoreFor soloAvg data).rating
        = chemistryRating (calculateChemistryScoreFor soloAvg data).score := rfl
    refine ⟨?_, ?_, ?_⟩
    · rw [hx]; exact le_max_left _ _
    · rw [hx]; exact max_le (by norm_num) (min_le_left _ _)
    · rw [hr]
      unfold chemistryRating
      split_ifs with h1 h2 h3 <;> simp [h1]
  all_goals
    norm_num [calculateChemistryScoreFor, chemistryRating, clampScore, average,
      List.sum_replicate, List.length_replicate]

/-! ## Monte Carlo sprint predictor (`src/backend/analyzers/predictions.ts`)

Randomness is embedded as an oracle `rand : ℕ → ℕ → ℕ` giving, for each
trial and each ticket position, the raw draw behind
`Math.floor(Math.random() * historicalCycleTimes.length)`; the draw is
reduced into range by `% length`, so any oracle samples within the
historical list. Coupling the draws between two simulations means
running both against the same oracle. -/

/-- `historicalCycleTimes[draw]`: the sampled cycle time for one raw
draw. -/
def sampleCycleTime (historicalCycleTimes : List ℚ) (r : ℕ) : ℚ :=
  historicalCycleTimes.getD (r % historicalCycleTimes.length) 0

/-- The inner ticket loop of one Monte Carlo trial: accumulate sampled
cycle times per ticket in sequence, counting a ticket completed while
the running total stays within the day budget and stopping (`break`) at
the first overrun. Arguments: ticket index, tickets remaining, days
used so far. -/
def trialCompleted (historicalCycleTimes : List ℚ) (rand : ℕ → ℕ)
    (daysAvailable : ℚ) : ℕ → ℕ → ℚ → ℕ
  | _, 0, _ => 0
  | t, n + 1, daysUsed =>
    let used := daysUsed + sampleCycleTime historicalCycleTimes (rand t)
    if used ≤ daysAvailable then
      1 + trialCompleted historicalCycleTimes rand daysAvailable (t + 1) n used
    else 0

/-- The statistics `runMonteCarloSimulation` returns. -/
structure SimulationStats where
  completionProbability : ℚ
  expectedCompleted : ℤ
  confidenceIntervalLow : ℚ
  confidenceIntervalHigh : ℚ
deriving DecidableEq, Repr

/-- `runMonteCarloSimulation`: `iterations` independent trials; the
completion probability is the fraction of trials in which every ticket
completed; the expectation is the rounded mean; the 80% confidence
interval reads the sorted completed-counts at the 10th/90th percentile
indices (`Math.floor(iterations * 0.1)` and `* 0.9`, exact here where
the source's floating-point products round to the same integers for its
iteration counts). -/
def runMonteCarloSimulation (ticketCount : ℕ) (historicalCycleTimes : List ℚ)
    (daysAvailable : ℚ) (iterations : ℕ) (rand : ℕ → ℕ → ℕ) : SimulationStats :=
  let results := (List.range iterations).map
    (fun i => trialCompleted historicalCycleTimes (rand i) daysAvailable 0 ticketCount 0)
  let expectedCompleted := average (results.map (fun r => (r : ℚ)))
  let completionProbability :=
    ((results.filter (fun r => decide (r = ticketCount))).length : ℚ) / iterations
  let sorted := results.mergeSort (fun a b => decide (a ≤ b))
  let lowIndex := (⌊(iterations : ℚ) * (1 / 10)⌋).toNat
  let highIndex := (⌊(iterations : ℚ) * (9 / 10)⌋).toNat
  { completionProbability := completionProbability
    expectedCompleted := round expectedCompleted
    confidenceIntervalLow := (sorted.getD lowIndex 0 : ℚ)
    confidenceIntervalHigh := (sorted.getD highIndex 0 : ℚ) }

/-- A trial that completes all `n + 1` tickets also completes all `n`
tickets of the shorter simulation run against the same draws: the
prefix budget conditions of the shorter run are a subset of the longer
run's. -/
theorem trialCompleted_of_succ (historicalCycleTimes : List ℚ) (rand : ℕ → ℕ)
    (daysAvailable : ℚ) :
    ∀ (n t : ℕ) (used : ℚ),
      trialCompleted historicalCycleTimes rand daysAvailable t (n + 1) used = n + 1 →
      trialCompleted historicalCycleTimes rand daysAvailable t n used = n := by
  intro n
  induction n with
  | zero => intro t used _; rfl
  | succ n ih =>
    intro t used h
    rw [show n + 1 + 1 = (n + 1) + 1 from rfl] at h
    unfold trialCompleted at h ⊢
    by_cases hc :
        used + sampleCycleTime historicalCycleTimes (rand t) ≤ daysAvailable
    · rw [if_pos hc] at h ⊢
      have h' : trialCompleted historicalCycleTimes rand daysAvailable (t + 1) (n + 1)
          (used + sampleCycleTime historicalCycleTimes (rand t)) = n + 1 := by omega
      rw [ih (t + 1) _ h']
      omega
    · rw [if_neg hc] at h
      omega

/-- C6: with the historical cycle-time samples, the day budget, the
iteration count and the random draws all held fixed, simulating one
more active item never increases the reported completion probability. -/
theorem monteCarlo_completionProbability_antitone (ticketCount : ℕ)
    (historicalCycleTimes : List ℚ) (daysAvailable : ℚ) (iterations : ℕ)
    (rand : ℕ → ℕ → ℕ) :
    (runMonteCarloSimulation (ticketCount + 1) historicalCycleTimes daysAvailable
      iterations rand).completionProbability ≤
    (runMonteCarloSimulation ticketCount historicalCycleTimes daysAvailable
      iterations rand).completionProbability := by
  unfold runMonteCarloSimulation
  simp only [← List.countP_eq_length_filter, List.countP_map]
  apply div_le_div_of_nonneg_right ?_ (by positivity)
  rw [Nat.cast_le]
  apply List.countP_mono_left
  intro i _ hp
  simp only [Function.comp] at hp ⊢
  rw [decide_eq_true_eq] at hp ⊢
  exact trialCompleted_of_succ historicalCycleTimes (rand i) daysAvailable
    ticketCount 0 0 hp

/-! ## Burnout detection analyzer (`analyzers/burnout.ts`) -/

/-- The `'healthy' | 'warning' | 'high' | 'critical'` risk level. -/
inductive RiskLevel where
  | healthy
  | warning
  | high
  | critical
deriving DecidableEq, Repr

/-- The `'under' | 'optimal' | 'over' | 'critical'` load status. -/
inductive LoadStatus where
  | under
  | optimal
  | over
  | critical
deriving DecidableEq, Repr

/-- The `'low' | 'medium' | 'high' | 'critical'` factor severity. -/
inductive Severity where
  | low
  | medium
  | high
  | critical
deriving DecidableEq, Repr

/-- The burnout factor tags from `models/analysis.ts`. -/
inductive BurnoutFactorKind where
  | sustained_overload
  | danger_hours
  | declining_velocity
  | long_cycles
  | no_breaks
deriving DecidableEq, Repr

/-- `BurnoutRiskFactor` from `models/analysis.ts`. -/
structure BurnoutRiskFactor where
  factor : BurnoutFactorKind
  severity : Severity
  description : String
  weeksAffected : ℕ
  impact : ℚ
deriving DecidableEq, Repr

/-- The `optimalRange` pair `{min, max}`. -/
structure LoadRange where
  min : ℚ
  max : ℚ
deriving DecidableEq, Repr

/-- `LoadPoint` from `models/analysis.ts`. -/
structure LoadPoint where
  load : ℕ
  cycleTime : ℚ
  defectRate : ℚ
  completionRate : ℚ
  score : ℚ
deriving DecidableEq, Repr

/-- `LoadAnalysis` from `models/analysis.ts` (the `Record<number,
LoadPoint>` curve as an association list). -/
structure LoadAnalysis where
  accountId : String
  optimalRange : LoadRange
  loadCurve : List (ℕ × LoadPoint)
  currentLoad : ℕ
  currentStatus : LoadStatus
  recommendations : List String
  confidence : Confidence
  dataPoints : ℕ
  lastUpdated : ℚ
deriving DecidableEq, Repr

/-- The `peakWindow` record of `TimingAnalysis` (`end` renamed
`endHour`). -/
structure PeakWindow where
  start : ℕ
  endHour : ℕ
  qualityMultiplier : ℚ
  description : String
deriving DecidableEq, Repr

/-- The optional `dangerZone` record of `TimingAnalysis`. -/
structure DangerZone where
  start : ℕ
  endHour : ℕ
  revertMultiplier : ℚ
  description : String
deriving DecidableEq, Repr

/-- `DayPattern` from `models/metrics.ts`. -/
structure DayPattern where
  dayOfWeek : String
  quality : ℚ
  speed : ℚ
  volume : ℚ
deriving DecidableEq, Repr

/-- `TimingAnalysis` from `models/analysis.ts`. -/
structure TimingAnalysis where
  accountId : String
  peakWindow : PeakWindow
  dangerZone : Option DangerZone
  dayPatterns : List (String × DayPattern)
  recommendations : List String
  confidence : Confidence
  dataPoints : ℕ
  lastUpdated : ℚ
deriving DecidableEq, Repr

/-- The `trends` record of `BurnoutAnalysis`: per-week series for the
last 8 weeks, oldest first. -/
structure WeeklyTrends where
  weeklyOverload : List ℚ
  dangerHourWork : List ℚ
  velocityTrend : List ℕ
deriving DecidableEq, Repr

/-- `BurnoutAnalysis` from `models/analysis.ts`. -/
structure BurnoutAnalysis where
  accountId : String
  burnoutScore : ℚ
  riskLevel : RiskLevel
  riskFactors : List BurnoutRiskFactor
  trends : WeeklyTrends
  recommendations : List String
  recoveryPlan : Option (List String)
  confidence : Confidence
  dataPoints : ℕ
  lastUpdated : ℚ
deriving DecidableEq, Repr

/-- Week `i` of `analyzeWeeklyPatterns` (0 = the week ending now):
completed issues with a resolution timestamp in
`[now - (i+1)·7d, now - i·7d)`. -/
def weekVelocity (issues : List Issue) (now : ℚ) (i : ℕ) : ℕ :=
  let weekEnd := now - i * 7 * 86400000
  let weekStart := weekEnd - 7 * 86400000
  (issues.filter (fun issue =>
    match issue.resolved with
    | some r => decide (weekStart ≤ r ∧ r < weekEnd)
    | none => false)).length

/-- Week `i`'s overload estimate: created-minus-completed, scaled by
`/9 × 100` against the optimal-load ceiling and capped at 100; `0` when
not net-positive. -/
def weekOverload (issues : List Issue) (now : ℚ) (i : ℕ) : ℚ :=
  let weekEnd := now - i * 7 * 86400000
  let weekStart := weekEnd - 7 * 86400000
  let createdInWeek := (issues.filter (fun issue =>
    decide (weekStart ≤ issue.created ∧ issue.created < weekEnd))).length
  let completedInWeek := weekVelocity issues now i
  let netChange : ℤ := (createdInWeek : ℤ) - (completedInWeek : ℤ)
  if netChange > 0 then min 100 ((netChange : ℚ) / 9 * 100) else 0

/-- `analyzeWeeklyPatterns`: the source loops `i = 0..7` and `unshift`s,
so each series ends chronological — week 7 (oldest) first; hence the
reversed range. The danger-hour series is hard-coded to zeros
("Since we don't have commit time data, keep at 0 for now"). -/
def analyzeWeeklyPatterns (issues : List Issue) (now : ℚ) : WeeklyTrends :=
  { weeklyOverload := (List.range 8).reverse.map (weekOverload issues now)
    dangerHourWork := (List.range 8).reverse.map (fun _ => 0)
    velocityTrend := (List.range 8).reverse.map (weekVelocity issues now) }

/-- `detectRiskFactors`: the five risk-factor blocks, in source order.
The factor list is the concatenation of each block's contribution (a
singleton when its condition fires, else nothing); `toFixed(0)` in the
velocity description is modelled by `round`. The JS division of an
empty slice's sum by its length (NaN) cannot arise through
`analyzeBurnoutRisk`, whose series always have 8 entries. -/
def detectRiskFactors (weeklyData : WeeklyTrends) (loadAnalysis : LoadAnalysis)
    (timingAnalysis : TimingAnalysis) (currentHour : ℕ) : List BurnoutRiskFactor :=
  let weeksOverloaded :=
    (weeklyData.weeklyOverload.filter (fun w => decide (w > 50))).length
  let factor1 : List BurnoutRiskFactor :=
    if weeksOverloaded ≥ 2 then
      let si : Severity × ℚ :=
        if weeksOverloaded ≥ 6 then (.critical, 40)
        else if weeksOverloaded ≥ 4 then (.high, 30)
        else (.medium, 20)
      [{ factor := .sustained_overload, severity := si.1,
         description := "You've been over capacity for " ++ toString weeksOverloaded ++
           " of the last 8 weeks",
         weeksAffected := weeksOverloaded, impact := si.2 }]
    else []
  let factor2 : List BurnoutRiskFactor :=
    if loadAnalysis.currentStatus = .critical ∨ loadAnalysis.currentStatus = .over then
      [{ factor := .sustained_overload,
         severity := if loadAnalysis.currentStatus = .critical then .critical else .high,
         description := "Currently " ++ toString loadAnalysis.currentLoad ++
           " tickets (optimal: " ++ toString loadAnalysis.optimalRange.min ++ "-" ++
           toString loadAnalysis.optimalRange.max ++ ")",
         weeksAffected := 1,
         impact := if loadAnalysis.currentStatus = .critical then 25 else 15 }]
    else if loadAnalysis.currentLoad ≥ 7 then
      [{ factor := .sustained_overload, severity := .low,
         description := "Currently at " ++ toString loadAnalysis.currentLoad ++
           " tickets (near upper limit of optimal range)",
         weeksAffected := 1, impact := 5 }]
    else []
  let recentVelocity :=
    weeklyData.velocityTrend.drop (weeklyData.velocityTrend.length - 4)
  let olderVelocity := weeklyData.velocityTrend.take 4
  let recentAvg : ℚ :=
    (recentVelocity.map (fun n => (n : ℚ))).sum / recentVelocity.length
  let olderAvg : ℚ :=
    (olderVelocity.map (fun n => (n : ℚ))).sum / olderVelocity.length
  let factor3 : List BurnoutRiskFactor :=
    if olderAvg > 0 then
      let velocityChange := (recentAvg - olderAvg) / olderAvg * 100
      if velocityChange < -20 then
        let si : Severity × ℚ :=
          if velocityChange < -40 then (.critical, 30)
          else if velocityChange < -30 then (.high, 25)
          else (.medium, 15)
        [{ factor := .declining_velocity, severity := si.1,
           description := "Velocity dropped " ++ toString (round |velocityChange|) ++
             "% over last 4 weeks",
           weeksAffected := 4, impact := si.2 }]
      else []
    else []
  let factor4 : List BurnoutRiskFactor :=
    match timingAnalysis.dangerZone with
    | some dz =>
      if dz.start ≤ currentHour ∧ currentHour ≤ dz.endHour then
        [{ factor := .danger_hours, severity := .medium,
           description := "Currently working during your danger zone (" ++
             toString dz.start ++ ":00-" ++ toString dz.endHour ++ ":00)",
           weeksAffected := 1, impact := 10 }]
      else []
    | none => []
  let highVelocityWeeks :=
    (weeklyData.velocityTrend.filter (fun v => decide (v ≥ 8))).length
  let factor5 : List BurnoutRiskFactor :=
    if highVelocityWeeks ≥ 3 then
      [{ factor := .sustained_overload, severity := .medium,
         description := toString highVelocityWeeks ++
           " high-velocity weeks detected (potential crunch periods)",
         weeksAffected := highVelocityWeeks, impact := 15 }]
    else []
  factor1 ++ factor2 ++ factor3 ++ factor4 ++ factor5

/-- `calculateBurnoutScore`: `0` on no factors, else the summed impacts
capped at 100. -/
def calculateBurnoutScore (factors : List BurnoutRiskFactor) : ℚ :=
  if factors.length = 0 then 0
  else min 100 (factors.map (fun f => f.impact)).sum

/-- `determinRiskLevel` (source spelling): threshold the composite. -/
def determinRiskLevel (score : ℚ) : RiskLevel :=
  if score ≥ 70 then .critical
  else if score ≥ 50 then .high
  else if score ≥ 30 then .warning
  else .healthy

/-- `generateBurnoutRecommendations`: the per-level block followed by
the per-factor blocks. -/
def generateBurnoutRecommendations (riskLevel : RiskLevel)
    (factors : List BurnoutRiskFactor) : List String :=
  let base : List String :=
    if riskLevel = .critical then
      ["🚨 CRITICAL BURNOUT RISK - Immediate action required",
       "   → Take a mental health day or extended break",
       "   → Talk to your manager about workload immediately",
       "   → Delegate or defer non-critical work"]
    else if riskLevel = .high then
      ["⚠️ HIGH BURNOUT RISK - Take preventive action",
       "   → Reduce workload to optimal range (5-9 tickets)",
       "   → Protect your peak hours for deep work only",
       "   → Schedule recovery time this week"]
    else if riskLevel = .warning then
      ["💛 WARNING - Burnout risk detected",
       "   → Monitor workload closely",
       "   → Avoid taking on additional commitments",
       "   → Ensure you're taking regular breaks"]
    else
      ["✅ HEALTHY - Sustainable pace maintained",
       "   → Keep up the good work-life balance",
       "   → Continue respecting your optimal load range"]
  let factorRecs := factors.flatMap (fun f =>
    (if f.factor = .sustained_overload ∧ f.severity ≠ .low then
      ["📊 You've been overloaded for " ++ toString f.weeksAffected ++ " weeks",
       "   → Complete current work before accepting new tickets"]
     else []) ++
    (if f.factor = .declining_velocity then
      ["📉 Velocity declining - possible fatigue",
       "   → Focus on smaller, achievable tasks",
       "   → Consider pair programming for complex work"]
     else []))
  base ++ factorRecs

/-- `generateRecoveryPlan`: only for high/critical risk. -/
def generateRecoveryPlan (riskLevel : RiskLevel) : List String :=
  if riskLevel ≠ .high ∧ riskLevel ≠ .critical then []
  else
    ["🏥 RECOVERY PLAN:",
     "Week 1: Reduce to 3-4 active tickets maximum",
     "Week 2: Return to normal 5-9 ticket range",
     "Week 3: Monitor energy levels and adjust",
     "Ongoing: Protect peak hours, avoid danger zone work"]

/-- The burnout module's `createInsufficientDataResponse`. -/
def createInsufficientDataResponseBurnout (accountId : String)
    (dataPoints : ℕ) (now : ℚ) : BurnoutAnalysis :=
  { accountId := accountId
    burnoutScore := 0
    riskLevel := .healthy
    riskFactors := []
    trends := { weeklyOverload := [], dangerHourWork := [], velocityTrend := [] }
    recommendations :=
      ["Need more data for burnout analysis (have " ++ toString dataPoints ++
        ", need 5+)",
       "Complete more tickets over the next few weeks",
       "Monitor your workload and take regular breaks"]
    recoveryPlan := none
    confidence := .low
    dataPoints := dataPoints
    lastUpdated := now }

/-- `analyzeBurnoutRisk`. The source calls `getCached` but its
cache-hit early return is commented out ("TEMPORARILY DISABLE CACHE FOR
DEBUGGING"), so the `cached` argument is read and then ignored and the
analysis is always recomputed. Below 5 sample issues the
insufficient-data response is returned; otherwise the weekly patterns
are analyzed, risk factors detected — with a baseline
`sustained_overload` factor of impact 5 injected when none were
detected — and the composite score, risk level, recommendations and
recovery plan assembled. The load and timing analyses the source
awaits are passed as arguments, as are the clock readings. -/
def analyzeBurnoutRisk (cached : Option BurnoutAnalysis) (issues : List Issue)
    (loadAnalysis : LoadAnalysis) (timingAnalysis : TimingAnalysis)
    (accountId : String) (now : ℚ) (currentHour : ℕ) : BurnoutAnalysis :=
  if issues.length < 5 then
    createInsufficientDataResponseBurnout accountId issues.length now
  else
    let weeklyData := analyzeWeeklyPatterns issues now
    let riskFactors0 := detectRiskFactors weeklyData loadAnalysis timingAnalysis currentHour
    let riskFactors :=
      if riskFactors0.length = 0 then
        [{ factor := .sustained_overload, severity := .low,
           description := "Baseline health monitoring (no specific risks detected)",
           weeksAffected := 0, impact := 5 }]
      else riskFactors0
    let burnoutScore := calculateBurnoutScore riskFactors
    let riskLevel := determinRiskLevel burnoutScore
    { accountId := accountId
      burnoutScore := burnoutScore
      riskLevel := riskLevel
      riskFactors := riskFactors
      trends := weeklyData
      recommendations := generateBurnoutRecommendations riskLevel riskFactors
      recoveryPlan :=
        if (generateRecoveryPlan riskLevel).length > 0 then
          some (generateRecoveryPlan riskLevel)
        else none
      confidence :=
        if issues.length > 30 then .high
        else if issues.length > 15 then .medium
        else .low
      dataPoints := issues.length
      lastUpdated := now }

/-- C3: for any factor list with nonnegative impacts the composite
burnout score lies in `[0,100]`, and the risk level is the strictly
monotonic threshold function of the score — `healthy` below 30,
`warning` on `[30,50)`, `high` on `[50,70)`, `critical` from 70 — so 69
maps to `high` and 70 to `critical`. -/
theorem burnout_score_riskLevel_spec (factors : List BurnoutRiskFactor)
    (h : ∀ f ∈ factors, 0 ≤ f.impact) (s : ℚ) :
    0 ≤ calculateBurnoutScore factors ∧ calculateBurnoutScore factors ≤ 100 ∧
    (determinRiskLevel s = .healthy ↔ s < 30) ∧
    (determinRiskLevel s = .warning ↔ 30 ≤ s ∧ s < 50) ∧
    (determinRiskLevel s = .high ↔ 50 ≤ s ∧ s < 70) ∧
    (determinRiskLevel s = .critical ↔ 70 ≤ s) ∧
    determinRiskLevel 69 = .high ∧ determinRiskLevel 70 = .critical := by
  have hsum : 0 ≤ (factors.map (fun f => f.impact)).sum := by
    apply List.sum_nonneg
    intro x hx
    obtain ⟨f, hf, rfl⟩ := List.mem_map.1 hx
    exact h f hf
  refine ⟨?_, ?_, ?_, ?_, ?_, ?_,
    by norm_num [determinRiskLevel], by norm_num [determinRiskLevel]⟩
  · unfold calculateBurnoutScore
    split_ifs with h0
    · norm_num
    · exact le_min (by norm_num) hsum
  · unfold calculateBurnoutScore
    split_ifs with h0
    · norm_num
    · exact min_le_left _ _
  all_goals
    unfold determinRiskLevel
    split_ifs with h1 h2 h3 <;> simp <;>
      first
        | linarith
        | (constructor <;> linarith)
        | (intro hc; linarith)

/-- Witness for C3: the empty factor list and the threshold value 69. -/
theorem burnout_score_riskLevel_spec_witness :
    0 ≤ calculateBurnoutScore [] ∧ calculateBurnoutScore [] ≤ 100 ∧
    (determinRiskLevel 69 = .healthy ↔ (69 : ℚ) < 30) ∧
    (determinRiskLevel 69 = .warning ↔ (30 : ℚ) ≤ 69 ∧ (69 : ℚ) < 50) ∧
    (determinRiskLevel 69 = .high ↔ (50 : ℚ) ≤ 69 ∧ (69 : ℚ) < 70) ∧
    (determinRiskLevel 69 = .critical ↔ (70 : ℚ) ≤ 69) ∧
    determinRiskLevel 69 = .high ∧ determinRiskLevel 70 = .critical :=
  burnout_score_riskLevel_spec [] (by simp) 69

/-- Every factor `detectRiskFactors` emits carries an impact of at
least 5 (the block impacts are 20/30/40, 15/25, 5, 15/25/30, 10 and
15). -/
theorem detectRiskFactors_impact_ge_5 (weeklyData : WeeklyTrends)
    (loadAnalysis : LoadAnalysis) (timingAnalysis : TimingAnalysis)
    (currentHour : ℕ) :
    ∀ f ∈ detectRiskFactors weeklyData loadAnalysis timingAnalysis currentHour,
      5 ≤ f.impact := by
  intro f hf
  unfold detectRiskFactors at hf
  rcases hdz : timingAnalysis.dangerZone with _ | dz <;> rw [hdz] at hf <;>
    simp only [List.mem_append, List.not_mem_nil, or_false, false_or] at hf <;>
    [rcases hf with ((h | h) | h) | h; rcases hf with (((h | h) | h) | h) | h] <;>
    split_ifs at h <;> simp_all <;> norm_num

/-- A nonempty factor list whose impacts are all at least 5 scores at
least 5 (the cap at 100 never brings the score below 5). -/
theorem calculateBurnoutScore_ge_5 (factors : List BurnoutRiskFactor)
    (hne : factors ≠ []) (h : ∀ f ∈ factors, 5 ≤ f.impact) :
    5 ≤ calculateBurnoutScore factors := by
  unfold calculateBurnoutScore
  rw [if_neg (by simpa using hne)]
  refine le_min (by norm_num) ?_
  obtain ⟨f, rest, rfl⟩ : ∃ f rest, factors = f :: rest := by
    cases factors with
    | nil => exact absurd rfl hne
    | cons a t => exact ⟨a, t, rfl⟩
  simp only [List.map_cons, List.sum_cons]
  have h1 : 5 ≤ f.impact := h f (by simp)
  have h2 : 0 ≤ (rest.map (fun g => g.impact)).sum := by
    apply List.sum_nonneg
    intro x hx
    obtain ⟨g, hg, rfl⟩ := List.mem_map.1 hx
    have := h g (by simp [hg])
    linarith
  linarith

/-- C10: whenever the burnout analyzer runs with at least 5 sample
issues, the returned burnout score is at least 5 — if no risk factor is
detected, the baseline `sustained_overload` factor of impact 5 is
injected before scoring, so a zero score can only come from the
insufficient-data path. -/
theorem analyzeBurnoutRisk_min_score (cached : Option BurnoutAnalysis)
    (issues : List Issue) (loadAnalysis : LoadAnalysis)
    (timingAnalysis : TimingAnalysis) (accountId : String) (now : ℚ)
    (currentHour : ℕ) (h5 : 5 ≤ issues.length) :
    5 ≤ (analyzeBurnoutRisk cached issues loadAnalysis timingAnalysis
      accountId now currentHour).burnoutScore := by
  have hni : ¬(issues.length < 5) := by omega
  simp only [analyzeBurnoutRisk, if_neg hni]
  split_ifs with h0
  · apply calculateBurnoutScore_ge_5 _ (by simp)
    intro f hf
    simp only [List.mem_singleton] at hf
    subst hf
    norm_num
  · apply calculateBurnoutScore_ge_5
    · intro hnil
      rw [hnil] at h0
      simp at h0
    · exact detectRiskFactors_impact_ge_5 _ _ _ _

/-- Witness for C10: five issues with no metrics, an idle load analysis
and no danger zone still score at least 5 (the baseline factor). -/
theorem analyzeBurnoutRisk_min_score_witness :
    5 ≤ ([⟨"a", 0, none, none⟩, ⟨"b", 0, none, none⟩, ⟨"c", 0, none, none⟩,
          ⟨"d", 0, none, none⟩, ⟨"e", 0, none, none⟩] : List Issue).length ∧
    5 ≤ (analyzeBurnoutRisk none
      [⟨"a", 0, none, none⟩, ⟨"b", 0, none, none⟩, ⟨"c", 0, none, none⟩,
       ⟨"d", 0, none, none⟩, ⟨"e", 0, none, none⟩]
      ⟨"u", ⟨5, 9⟩, [], 0, .under, [], .low, 0, 0⟩
      ⟨"u", ⟨10, 12, 1, ""⟩, none, [], [], .low, 0, 0⟩
      "u" 0 3).burnoutScore :=
  ⟨by decide,
   analyzeBurnoutRisk_min_score none
     [⟨"a", 0, none, none⟩, ⟨"b", 0, none, none⟩, ⟨"c", 0, none, none⟩,
      ⟨"d", 0, none, none⟩, ⟨"e", 0, none, none⟩]
     ⟨"u", ⟨5, 9⟩, [], 0, .under, [], .low, 0, 0⟩
     ⟨"u", ⟨10, 12, 1, ""⟩, none, [], [], .low, 0, 0⟩
     "u" 0 3 (by decide)⟩

/-- C8's failing analyzer, evaluated: `analyzeBurnoutRisk` gives the
same result whatever cached analysis exists — the source's cache-hit
return is commented out ("TEMPORARILY DISABLE CACHE FOR DEBUGGING"), so
a fresh, version-matching cached result is never returned and the
analysis is always recomputed, contradicting the claim that every
analyzer entry point returns its unexpired cached result. (The other
entry points do return the cached value; see
`analyzer_insufficient_data_gates` for their gate structure.) -/
theorem analyzeBurnoutRisk_ignores_cache (c : BurnoutAnalysis)
    (issues : List Issue) (loadAnalysis : LoadAnalysis)
    (timingAnalysis : TimingAnalysis) (accountId : String) (now : ℚ)
    (currentHour : ℕ) :
    analyzeBurnoutRisk (some c) issues loadAnalysis timingAnalysis accountId
      now currentHour =
    analyzeBurnoutRisk none issues loadAnalysis timingAnalysis accountId
      now currentHour := rfl

/-! ## The analyzer entry-point gates

Each entry point checks the cache, then the minimum-sample gate, and
only then computes its analysis. The computed branch — irrelevant to the
gating claims, and unreachable when the sample gate fires — is passed in
as the `computed` argument; the cache read, the sample gates and the
insufficient-data responses are embedded from the source. -/

/-- `findOptimalLoadRange` from `load.ts`: a fixed 5-9 band, the curve
argument deliberately unused. -/
def findOptimalLoadRange (loadCurve : List (ℕ × LoadPoint)) : LoadRange :=
  ⟨5, 9⟩

/-- `determineLoadStatus` from `load.ts`: hard-coded zones (the
`optimalRange` argument is not consulted). -/
def determineLoadStatus (currentLoad : ℕ) (optimalRange : LoadRange) : LoadStatus :=
  if currentLoad < 5 then .under
  else if currentLoad ≥ 5 ∧ currentLoad ≤ 9 then .optimal
  else if currentLoad ≥ 10 ∧ currentLoad ≤ 12 then .over
  else .critical

/-- The `'expert' | 'strong' | 'average' | 'developing' | 'avoid'`
expertise tier. -/
inductive Expertise where
  | expert
  | strong
  | average
  | developing
  | avoid
deriving DecidableEq, Repr

/-- `StrengthMetric` from `models/analysis.ts`. -/
structure StrengthMetric where
  type : String
  userAvg : ℚ
  teamAvg : Option ℚ
  delta : ℚ
  count : ℕ
  qualityScore : ℚ
deriving DecidableEq, Repr

/-- `ComponentStrength` from `models/analysis.ts`. -/
structure ComponentStrength where
  component : String
  userAvg : ℚ
  teamAvg : Option ℚ
  count : ℕ
  expertise : Expertise
  qualityScore : ℚ
deriving DecidableEq, Repr

/-- `StrengthAnalysis` from `models/analysis.ts`. -/
structure StrengthAnalysis where
  accountId : String
  ticketTypes : List (String × StrengthMetric)
  components : List (String × ComponentStrength)
  recommendations : List String
  confidence : Confidence
  dataPoints : ℕ
  lastUpdated : ℚ
deriving DecidableEq, Repr

/-- The `'up' | 'down' | 'stable'` trend direction. -/
inductive Trend where
  | up
  | down
  | stable
deriving DecidableEq, Repr

/-- The `'growing' | 'declining' | 'stable'` skill trend. -/
inductive SkillTrend where
  | growing
  | declining
  | stable
deriving DecidableEq, Repr

/-- `TrendData` from `models/analysis.ts`. -/
structure TrendData where
  period : String
  startDate : ℚ
  endDate : ℚ
  value : ℚ
  trend : Trend
deriving DecidableEq, Repr

/-- `SkillEvolution` from `models/analysis.ts`. -/
structure SkillEvolution where
  skill : String
  currentLevel : ℚ
  previousLevel : ℚ
  growth : ℚ
  trend : SkillTrend
deriving DecidableEq, Repr

/-- `PeriodMetrics` from `models/analysis.ts`. -/
structure PeriodMetrics where
  period : String
  issuesCompleted : ℕ
  storyPoints : ℚ
  avgCycleTime : ℚ
  qualityScore : ℚ
  defectRate : ℚ
deriving DecidableEq, Repr

/-- The `periodComparison` record of `TrendAnalysis`. -/
structure PeriodComparison where
  current : PeriodMetrics
  previous : PeriodMetrics
  delta : List (String × ℚ)
deriving DecidableEq, Repr

/-- `TrendAnalysis` from `models/analysis.ts`. -/
structure TrendAnalysis where
  accountId : String
  velocityTrend : List TrendData
  qualityTrend : List TrendData
  skillsEvolution : List SkillEvolution
  periodComparison : PeriodComparison
  recommendations : List String
  confidence : Confidence
  dataPoints : ℕ
  lastUpdated : ℚ
deriving DecidableEq, Repr

/-- `TeamMateProfile` from `models/analysis.ts`. -/
structure TeamMateProfile where
  accountId : String
  displayName : String
  avatarUrl : Option String
  collaborationCount : ℕ
  sharedIssues : ℕ
  mentionCount : ℕ
deriving DecidableEq, Repr

/-- `CollaborationEdge` from `models/analysis.ts` (`from` and `to` are
Lean keywords; renamed `fromAccount`/`toAccount`). -/
structure CollaborationEdge where
  fromAccount : String
  toAccount : String
  strength : ℚ
  issueCount : ℕ
  avgCycleTime : ℚ
deriving DecidableEq, Repr

/-- The optional `bestPair` record of the pit-crew team metrics. -/
structure BestPair where
  teammate : String
  displayName : String
  speedup : ℚ
deriving DecidableEq, Repr

/-- The `teamMetrics` record of `PitCrewAnalysis`. -/
structure TeamMetrics where
  avgCollaborationCycleTime : ℚ
  fastestUnblocker : Option TeamMateProfile
  bestPair : Option BestPair
  totalCollaborations : ℕ
deriving DecidableEq, Repr

/-- `PitCrewAnalysis` from `models/analysis.ts`. -/
structure PitCrewAnalysis where
  accountId : String
  teammates : List TeamMateProfile
  collaborationNetwork : List CollaborationEdge
  chemistryScores : List (String × ChemistryScore)
  teamMetrics : TeamMetrics
  recommendations : List String
  confidence : Confidence
  dataPoints : ℕ
  lastUpdated : ℚ
deriving DecidableEq, Repr

/-- `TicketRisk` from `models/analysis.ts` (its risk level shares the
`'low'|'medium'|'high'|'critical'` vocabulary of `Severity`). -/
structure TicketRisk where
  issueKey : String
  summary : String
  riskLevel : Severity
  estimatedDaysRemaining : ℚ
  factors : List String
  recommendedAction : String
deriving DecidableEq, Repr

/-- The `'safe' | 'risky' | 'avoid'` what-if recommendation. -/
inductive ScenarioRecommendation where
  | safe
  | risky
  | avoid
deriving DecidableEq, Repr

/-- `WhatIfScenario` from `models/analysis.ts`. -/
structure WhatIfScenario where
  scenario : String
  impact : String
  completionProbability : ℚ
  recommendation : ScenarioRecommendation
deriving DecidableEq, Repr

/-- The `confidenceInterval` pair `{low, high}`. -/
structure ConfidenceInterval where
  low : ℚ
  high : ℚ
deriving DecidableEq, Repr

/-- The `predictions` record of `SprintPrediction`. -/
structure SprintPredictions where
  completionProbability : ℚ
  expectedTicketsCompleted : ℤ
  confidenceInterval : ConfidenceInterval
  atRiskTickets : List TicketRisk
deriving DecidableEq, Repr

/-- The `currentState` record of `SprintPrediction`. -/
structure SprintCurrentState where
  totalTickets : ℕ
  completedTickets : ℕ
  remainingTickets : ℕ
  daysRemaining : ℚ
  currentVelocity : ℕ
deriving DecidableEq, Repr

/-- `SprintPrediction` from `models/analysis.ts`. -/
structure SprintPrediction where
  accountId : String
  sprintId : Option String
  sprintName : Option String
  predictions : SprintPredictions
  currentState : SprintCurrentState
  whatIfScenarios : List WhatIfScenario
  recommendations : List String
  confidence : Confidence
  lastUpdated : ℚ
deriving DecidableEq, Repr

/-- The timing module's `createInsufficientDataResponse`. -/
def createInsufficientDataResponseTiming (accountId : String)
    (dataPoints : ℕ) (now : ℚ) : TimingAnalysis :=
  { accountId := accountId
    peakWindow :=
      ⟨10, 12, 1, "Insufficient data - need at least 10 completed tickets"⟩
    dangerZone := none
    dayPatterns := []
    recommendations :=
      ["Currently have " ++ toString dataPoints ++
        " data points, need at least 10 for timing analysis",
       "Complete more tickets and check back in a week or two"]
    confidence := .low
    dataPoints := dataPoints
    lastUpdated := now }

/-- The load module's `createInsufficientDataResponse`. -/
def createInsufficientDataResponseLoad (accountId : String)
    (dataPoints : ℕ) (now : ℚ) : LoadAnalysis :=
  { accountId := accountId
    optimalRange := ⟨5, 9⟩
    loadCurve := []
    currentLoad := 0
    currentStatus := .optimal
    recommendations :=
      ["Currently have " ++ toString dataPoints ++
        " data points, need at least 10 for detailed load analysis",
       "Complete more tickets and check back in a week or two",
       "General guidance: Most individual contributors perform best with 5-9 concurrent tickets"]
    confidence := .low
    dataPoints := dataPoints
    lastUpdated := now }

/-- The strength module's `createInsufficientDataResponse`. -/
def createInsufficientDataResponseStrengths (accountId : String)
    (dataPoints : ℕ) (now : ℚ) : StrengthAnalysis :=
  { accountId := accountId
    ticketTypes := []
    components := []
    recommendations :=
      ["Currently have " ++ toString dataPoints ++
        " data points, need at least 10 for strength analysis",
       "Complete more tickets across different types and components",
       "Check back in a few weeks for personalized insights"]
    confidence := .low
    dataPoints := dataPoints
    lastUpdated := now }

/-- The trend module's `createInsufficientDataResponse`. -/
def createInsufficientDataResponseTrends (accountId : String)
    (dataPoints : ℕ) (months : ℕ) (now : ℚ) : TrendAnalysis :=
  { accountId := accountId
    velocityTrend := []
    qualityTrend := []
    skillsEvolution := []
    periodComparison :=
      { current := ⟨"Current", 0, 0, 0, 0, 0⟩
        previous := ⟨"Previous", 0, 0, 0, 0, 0⟩
        delta := [] }
    recommendations :=
      ["Currently have " ++ toString dataPoints ++
        " data points, need at least 10 for trend analysis",
       "Trend analysis requires " ++ toString months ++ " months of history",
       "Complete more tickets and check back later for insights"]
    confidence := .low
    dataPoints := dataPoints
    lastUpdated := now }

/-- The pit-crew module's `createInsufficientDataResponse`. -/
def createInsufficientDataResponsePitCrew (accountId : String)
    (dataPoints : ℕ) (now : ℚ) : PitCrewAnalysis :=
  { accountId := accountId
    teammates := []
    collaborationNetwork := []
    chemistryScores := []
    teamMetrics :=
      { avgCollaborationCycleTime := 0, fastestUnblocker := none,
        bestPair := none, totalCollaborations := 0 }
    recommendations :=
      ["Need more data for pit crew analysis (have " ++ toString dataPoints ++
        ", need 10+)",
       "Work with teammates on issues to build collaboration history",
       "Full analysis available after more team interactions"]
    confidence := .low
    dataPoints := dataPoints
    lastUpdated := now }

/-- The prediction module's `createInsufficientDataResponse`. -/
def createInsufficientDataResponsePredictions (accountId : String)
    (dataPoints : ℕ) (now : ℚ) : SprintPrediction :=
  { accountId := accountId
    sprintId := none
    sprintName := none
    predictions :=
      { completionProbability := 1 / 2
        expectedTicketsCompleted := 0
        confidenceInterval := ⟨0, 0⟩
        atRiskTickets := [] }
    currentState :=
      { totalTickets := 0, completedTickets := 0, remainingTickets := 0,
        daysRemaining := 0, currentVelocity := 0 }
    whatIfScenarios := []
    recommendations :=
      ["Need more data for sprint predictions (have " ++ toString dataPoints ++
        ", need 5+)",
       "Complete more tickets to build historical data",
       "Predictions improve with more completed work"]
    confidence := .low
    lastUpdated := now }

/-- `analyzeTimingPatterns` (`analyzers/timing.ts`): cached result if
present, insufficient-data response below 10 issues, else the computed
analysis. -/
def analyzeTimingPatterns (cached : Option TimingAnalysis) (issues : List Issue)
    (accountId : String) (now : ℚ) (computed : TimingAnalysis) : TimingAnalysis :=
  match cached with
  | some c => c
  | none =>
    if issues.length < 10 then
      createInsufficientDataResponseTiming accountId issues.length now
    else computed

/-- `analyzeLoadPatterns` (`analyzers/load.ts`): on a cache hit the
current load and status are refreshed live from the active-ticket count
before returning; below 10 issues the insufficient-data response. -/
def analyzeLoadPatterns (cached : Option LoadAnalysis) (issues : List Issue)
    (activeTickets : ℕ) (accountId : String) (now : ℚ)
    (computed : LoadAnalysis) : LoadAnalysis :=
  match cached with
  | some c =>
    { c with currentLoad := activeTickets,
             currentStatus := determineLoadStatus activeTickets c.optimalRange }
  | none =>
    if issues.length < 10 then
      createInsufficientDataResponseLoad accountId issues.length now
    else computed

/-- `analyzeStrengthPatterns` (`analyzers/strengths.ts`). -/
def analyzeStrengthPatterns (cached : Option StrengthAnalysis)
    (userIssues : List Issue) (accountId : String) (now : ℚ)
    (computed : StrengthAnalysis) : StrengthAnalysis :=
  match cached with
  | some c => c
  | none =>
    if userIssues.length < 10 then
      createInsufficientDataResponseStrengths accountId userIssues.length now
    else computed

/-- `analyzeTrends` (`analyzers/trends.ts`). -/
def analyzeTrends (cached : Option TrendAnalysis) (userIssues : List Issue)
    (accountId : String) (months : ℕ) (now : ℚ)
    (computed : TrendAnalysis) : TrendAnalysis :=
  match cached with
  | some c => c
  | none =>
    if userIssues.length < 10 then
      createInsufficientDataResponseTrends accountId userIssues.length months now
    else computed

/-- `analyzePitCrewPatterns` (`analyzers/pitcrew.ts`). -/
def analyzePitCrewPatterns (cached : Option PitCrewAnalysis)
    (userIssues : List Issue) (accountId : String) (now : ℚ)
    (computed : PitCrewAnalysis) : PitCrewAnalysis :=
  match cached with
  | some c => c
  | none =>
    if userIssues.length < 10 then
      createInsufficientDataResponsePitCrew accountId userIssues.length now
    else computed

/-- `predictSprintCompletion` (`analyzers/predictions.ts`): cached
result if present; below 5 historical issues the insufficient-data
response; the same response at `dataPoints = 0` when no issue has a
positive cycle-time metric; else the computed prediction. -/
def predictSprintCompletion (cached : Option SprintPrediction)
    (historicalIssues : List Issue) (accountId : String) (now : ℚ)
    (computed : SprintPrediction) : SprintPrediction :=
  match cached with
  | some c => c
  | none =>
    if historicalIssues.length < 5 then
      createInsufficientDataResponsePredictions accountId historicalIssues.length now
    else
      let cycleTimes := (historicalIssues.filter metricsCycleTimePos).map cycleTimeOf
      if cycleTimes.length = 0 then
        createInsufficientDataResponsePredictions accountId 0 now
      else computed

/-- C9: on a cache miss, a subject whose fetched history holds exactly
4 items makes every sample-gated analyzer return its explicit
insufficient-data variant with confidence `low`: timing, load,
strengths, trends and pit-crew gate at 10, burnout and sprint
prediction at 5 — and 4 is below them all. (Burnout ignores its cache
argument altogether, so its conclusion holds for any cached value.) -/
theorem analyzer_insufficient_data_gates
    (issues : List Issue) (h4 : issues.length = 4)
    (accountId : String) (now : ℚ) (months activeTickets currentHour : ℕ)
    (loadAnalysis : LoadAnalysis) (timingAnalysis : TimingAnalysis)
    (cachedB : Option BurnoutAnalysis)
    (computedT : TimingAnalysis) (computedL : LoadAnalysis)
    (computedS : StrengthAnalysis) (computedTr : TrendAnalysis)
    (computedP : PitCrewAnalysis) (computedSp : SprintPrediction) :
    (analyzeTimingPatterns none issues accountId now computedT =
        createInsufficientDataResponseTiming accountId 4 now ∧
      (analyzeTimingPatterns none issues accountId now computedT).confidence = .low) ∧
    (analyzeLoadPatterns none issues activeTickets accountId now computedL =
        createInsufficientDataResponseLoad accountId 4 now ∧
      (analyzeLoadPatterns none issues activeTickets accountId now computedL).confidence = .low) ∧
    (analyzeStrengthPatterns none issues accountId now computedS =
        createInsufficientDataResponseStrengths accountId 4 now ∧
      (analyzeStrengthPatterns none issues accountId now computedS).confidence = .low) ∧
    (analyzeTrends none issues accountId months now computedTr =
        createInsufficientDataResponseTrends accountId 4 months now ∧
      (analyzeTrends none issues accountId months now computedTr).confidence = .low) ∧
    (analyzePitCrewPatterns none issues accountId now computedP =
        createInsufficientDataResponsePitCrew accountId 4 now ∧
      (analyzePitCrewPatterns none issues accountId now computedP).confidence = .low) ∧
    (analyzeBurnoutRisk cachedB issues loadAnalysis timingAnalysis accountId now
        currentHour =
        createInsufficientDataResponseBurnout accountId 4 now ∧
      (analyzeBurnoutRisk cachedB issues loadAnalysis timingAnalysis accountId now
        currentHour).confidence = .low) ∧
    (predictSprintCompletion none issues accountId now computedSp =
        createInsufficientDataResponsePredictions accountId 4 now ∧
      (predictSprintCompletion none issues accountId now computedSp).confidence = .low) := by
  have hT : analyzeTimingPatterns none issues accountId now computedT =
      createInsufficientDataResponseTiming accountId 4 now := by
    simp [analyzeTimingPatterns, h4]
  have hL : analyzeLoadPatterns none issues activeTickets accountId now computedL =
      createInsufficientDataResponseLoad accountId 4 now := by
    simp [analyzeLoadPatterns, h4]
  have hS : analyzeStrengthPatterns none issues accountId now computedS =
      createInsufficientDataResponseStrengths accountId 4 now := by
    simp [analyzeStrengthPatterns, h4]
  have hTr : analyzeTrends none issues accountId months now computedTr =
      createInsufficientDataResponseTrends accountId 4 months now := by
    simp [analyzeTrends, h4]
  have hP : analyzePitCrewPatterns none issues accountId now computedP =
      createInsufficientDataResponsePitCrew accountId 4 now := by
    simp [analyzePitCrewPatterns, h4]
  have hB : analyzeBurnoutRisk cachedB issues loadAnalysis timingAnalysis accountId
      now currentHour = createInsufficientDataResponseBurnout accountId 4 now := by
    unfold analyzeBurnoutRisk
    rw [h4]
    norm_num
  have hSp : predictSprintCompletion none issues accountId now computedSp =
      createInsufficientDataResponsePredictions accountId 4 now := by
    simp [predictSprintCompletion, h4]
  exact ⟨⟨hT, by rw [hT]; rfl⟩, ⟨hL, by rw [hL]; rfl⟩, ⟨hS, by rw [hS]; rfl⟩,
    ⟨hTr, by rw [hTr]; rfl⟩, ⟨hP, by rw [hP]; rfl⟩, ⟨hB, by rw [hB]; rfl⟩,
    ⟨hSp, by rw [hSp]; rfl⟩⟩

/-- Witness for C9: a concrete 4-item history; the timing analyzer
returns the insufficient-data variant with confidence `low`. -/
theorem analyzer_insufficient_data_gates_witness :
    ([⟨"a", 0, none, none⟩, ⟨"b", 0, none, none⟩,
      ⟨"c", 0, none, none⟩, ⟨"d", 0, none, none⟩] : List Issue).length = 4 ∧
    (analyzeTimingPatterns none
        [⟨"a", 0, none, none⟩, ⟨"b", 0, none, none⟩,
         ⟨"c", 0, none, none⟩, ⟨"d", 0, none, none⟩] "u" 0
        (createInsufficientDataResponseTiming "x" 99 1) =
      createInsufficientDataResponseTiming "u" 4 0 ∧
     (analyzeTimingPatterns none
        [⟨"a", 0, none, none⟩, ⟨"b", 0, none, none⟩,
         ⟨"c", 0, none, none⟩, ⟨"d", 0, none, none⟩] "u" 0
        (createInsufficientDataResponseTiming "x" 99 1)).confidence = .low) :=
  ⟨rfl,
   (analyzer_insufficient_data_gates
     [⟨"a", 0, none, none⟩, ⟨"b", 0, none, none⟩,
      ⟨"c", 0, none, none⟩, ⟨"d", 0, none, none⟩] rfl "u" 0 6 0 3
     ⟨"u", ⟨5, 9⟩, [], 0, .under, [], .low, 0, 0⟩
     ⟨"u", ⟨10, 12, 1, ""⟩, none, [], [], .low, 0, 0⟩
     none
     (createInsufficientDataResponseTiming "x" 99 1)
     (createInsufficientDataResponseLoad "x" 99 1)
     (createInsufficientDataResponseStrengths "x" 99 1)
     (createInsufficientDataResponseTrends "x" 99 6 1)
     (createInsufficientDataResponsePitCrew "x" 99 1)
     (createInsufficientDataResponsePredictions "x" 99 1)).1⟩
